import Mathlib

/-!
Verification development for the IPC provider backend of this repository
(the module `ipcProviderBackend`).  The definitions below are a shallow
embedding of the backend source: the error table `ERRORS`, the
sanitization pass `_sanitizeRequestPayload`, the request router
`_sendRequest`, the payload shapers `_makeResponsePayload` and
`_makeErrorResponsePayload`, the connect deduplication logic of
`_getOrCreateConnection`, the connection destruction handler
`_destroyConnection`, and the node state reactor `_onNodeStateChanged`.
-/

namespace Ipc

/-- Fragment of JavaScript values needed for request ids and params.
JSON request ids are numbers, strings or null; `undefined` models an
absent property when its value is read. -/
inductive JsVal where
  | undefined
  | null
  | bool (b : Bool)
  | num (n : Int)
  | str (s : String)
deriving DecidableEq

/-- JavaScript truthiness for the modelled value fragment:
`undefined`, `null`, `false`, `0` and the empty string are falsy. -/
def truthy : JsVal → Bool
  | .undefined => false
  | .null => false
  | .bool b => b
  | .num n => n != 0
  | .str s => s != ""

/-- An error message value: a plain string, or an array of strings.
When the message is an array the source pops its last element before
templating. -/
inductive Msg where
  | str (s : String)
  | arr (xs : List String)
deriving DecidableEq

/-- A JSON-RPC error object as used throughout the source: `code` and
`message` properties, either of which may be absent (`none` models a
missing or undefined property, which JSON serialization drops). -/
structure ErrObj where
  code : Option Int
  message : Option Msg
deriving DecidableEq

/-- A request payload item, i.e. one JSON-RPC request object.  The
`error` field is attached by the sanitization pass; a freshly parsed
request normally has `error = none`. -/
structure Item where
  method : Option String
  params : Option JsVal
  id : JsVal
  error : Option ErrObj
deriving DecidableEq

/-- A request payload: a single object or an ordered sequence (batch). -/
inductive Payload where
  | single (item : Item)
  | batch (items : List Item)
deriving DecidableEq

/-- Either one value or an array of values: used for the shaped
response, which mirrors the single versus batch shape of the request. -/
inductive JsOne (α : Type) where
  | one (a : α)
  | arr (xs : List α)
deriving DecidableEq

/-- The apostrophe character (used by the error message templates). -/
def squote : Char := Char.ofNat 39

/-- The apostrophe as a one character string. -/
def sq : String := String.mk [squote]

/-- The quoted placeholder segment appearing in the error templates. -/
def methodPlaceholder : String := sq ++ "__method__" ++ sq

/-- Message text of `ERRORS.INVALID_PAYLOAD`. -/
def invalidPayloadMessage : String := "Payload invalid."

/-- Message text of `ERRORS.METHOD_DENIED`. -/
def methodDeniedTemplate : String := "Method " ++ methodPlaceholder ++ " not allowed."

/-- Message text of `ERRORS.METHOD_TIMEOUT` (note the double space, as
in the source). -/
def methodTimeoutTemplate : String :=
  "Request timed out for method  " ++ methodPlaceholder ++ "."

/-- Message text of `ERRORS.TX_DENIED`. -/
def txDeniedMessage : String := "Transaction denied"

/-- Message text of `ERRORS.BATCH_TX_DENIED`. -/
def batchTxDeniedMessage : String :=
  "Transactions denied, sendTransaction is not allowed in batch requests."

/-- ERRORS.INVALID_PAYLOAD from the source error table. -/
def ERRORS_INVALID_PAYLOAD : ErrObj := ⟨some (-32600), some (.str invalidPayloadMessage)⟩

/-- ERRORS.METHOD_DENIED from the source error table. -/
def ERRORS_METHOD_DENIED : ErrObj := ⟨some (-32601), some (.str methodDeniedTemplate)⟩

/-- ERRORS.METHOD_TIMEOUT from the source error table. -/
def ERRORS_METHOD_TIMEOUT : ErrObj := ⟨some (-32603), some (.str methodTimeoutTemplate)⟩

/-- ERRORS.TX_DENIED from the source error table. -/
def ERRORS_TX_DENIED : ErrObj := ⟨some (-32603), some (.str txDeniedMessage)⟩

/-- ERRORS.BATCH_TX_DENIED from the source error table. -/
def ERRORS_BATCH_TX_DENIED : ErrObj := ⟨some (-32603), some (.str batchTxDeniedMessage)⟩

/-- Embeds `_sanitizeRequestPayload`.  For an array payload, every
entry whose method is exactly `eth_sendTransaction` gets the
`BATCH_TX_DENIED` error attached, and every other entry is passed to
the sanitize step of the base processor; a non array payload is passed
to the base sanitize step directly.  The base processor lives in the
`methods` directory, outside these sources, so its sanitize step is
abstracted as the function argument `baseSanitize`. -/
def sanitizeRequestPayload (baseSanitize : Item → Item) : Payload → Payload
  | .batch items =>
      .batch (items.map fun p =>
        if p.method = some "eth_sendTransaction" then
          { p with error := some ERRORS_BATCH_TX_DENIED }
        else baseSanitize p)
  | .single p => .single (baseSanitize p)

/-- The method name of an item as JavaScript coerces it into the
replacement string: a missing method property reads as `undefined`,
which string concatenation renders as the text `undefined`. -/
def jsMethodString (it : Item) : String := it.method.getD "undefined"

/-- Matches a character of the regex class `[a-z_]` under the `i`
flag: an ASCII letter or an underscore. -/
def isPlaceholderChar (c : Char) : Bool := c.isAlpha || c == '_'

/-- Scans forward over `[a-z_]` characters (case insensitive); returns
the remainder after a closing apostrophe, or `none` when the run is
interrupted by any other character.  Mirrors how the source regex
matches at a position: an apostrophe, a maximal run of class
characters, then an apostrophe. -/
def afterPlaceholder : List Char → Option (List Char)
  | [] => none
  | c :: cs =>
      if c = squote then some cs
      else if isPlaceholderChar c then afterPlaceholder cs
      else none

/-- Replaces the first match of the regex (an apostrophe, a run of
`[a-z_]` characters case insensitively, an apostrophe) by `repl`,
leaving the string unchanged when there is no match: the behavior of a
single (non global) JavaScript string replace. -/
def replaceFirstQuoted (repl : List Char) : List Char → List Char
  | [] => []
  | c :: cs =>
      if c = squote then
        match afterPlaceholder cs with
        | some rest => repl ++ rest
        | none => c :: replaceFirstQuoted repl cs
      else c :: replaceFirstQuoted repl cs

/-- Embeds the message templating step of `_makeErrorResponsePayload`:
the first quoted placeholder segment of the message is replaced by the
method name wrapped in apostrophes. -/
def replaceQuoted (method s : String) : String :=
  String.mk (replaceFirstQuoted (squote :: (method.data ++ [squote])) s.data)

/-- Coerces a message value to the string the source templates on: an
array message has its last element popped first; popping an empty
array yields `undefined`, on which the replace call would throw
(`none`). -/
def msgToStr : Msg → Option String
  | .str s => some s
  | .arr xs => xs.getLast?

/-- JavaScript truthiness of the `message` property: absent and the
empty string are falsy, every array (even empty) is truthy. -/
def msgTruthy : Option Msg → Bool
  | none => false
  | some (.str s) => s != ""
  | some (.arr _) => true

/-- One shaped error entry, as produced per original item by
`_makeErrorResponsePayload`: `jsonrpc` is set to 2.0, the `code`
property is carried over at top level from the error object, a truthy
`message` is templated and moved into the nested `error` object (and
then deleted), the request only properties `params` and `method` are
deleted, and `id` is copied from the original item. -/
structure ErrEntry where
  jsonrpc : String
  code : Option Int
  message : Option Msg
  error : Option String
  params : Option JsVal
  method : Option String
  id : JsVal
deriving DecidableEq

/-- Embeds the per item body of `_makeErrorResponsePayload`: extend
`jsonrpc: 2.0` with the error object; when the message is truthy, pop
an array message, substitute the item method into the quoted
placeholder, store the result as the nested error object and delete
the flat message; finally delete `params` and `method` (no ops here,
since an error object carries neither) and set `id` from the item.
`none` models the JavaScript type error thrown when an empty array
message pops to `undefined`. -/
def makeErrorEntry (item : Item) (error : ErrObj) : Option ErrEntry :=
  if msgTruthy error.message = true then
    match error.message with
    | some msg =>
        match msgToStr msg with
        | some s =>
            some { jsonrpc := "2.0", code := error.code, message := none,
                   error := some (replaceQuoted (jsMethodString item) s),
                   params := none, method := none, id := item.id }
        | none => none
    | none => none
  else
    some { jsonrpc := "2.0", code := error.code, message := error.message,
           error := none, params := none, method := none, id := item.id }

/-- Maps `makeErrorEntry` over the items of the original payload, in
order, propagating a thrown type error. -/
def makeErrorEntries (error : ErrObj) : List Item → Option (List ErrEntry)
  | [] => some []
  | it :: rest =>
      match makeErrorEntry it error with
      | none => none
      | some e =>
          match makeErrorEntries error rest with
          | none => none
          | some es => some (e :: es)

/-- Embeds the `[].concat(originalPayload)` idiom: a batch contributes
its items, a single payload contributes a one element list. -/
def concatPayload : Payload → List Item
  | .single i => [i]
  | .batch l => l

/-- Embeds `_makeErrorResponsePayload`: one error entry per original
item (all built from the same error object), returned as an array for
a batch original and as the first (only) entry for a single one. -/
def makeErrorResponsePayload (orig : Payload) (error : ErrObj) : Option (JsOne ErrEntry) :=
  match makeErrorEntries error (concatPayload orig) with
  | none => none
  | some es =>
      match orig, es with
      | .batch _, es => some (.arr es)
      | .single _, e :: _ => some (.one e)
      | .single _, [] => none

/-- One result value as returned by a processor execution: a node
style response object with optional `error` and `result` properties. -/
structure ExecResult where
  error : Option ErrObj
  result : Option JsVal
deriving DecidableEq

/-- A processor execution result: one response object or an array of
them. -/
def ExecValue : Type := JsOne ExecResult

/-- One shaped successful response entry: the original item extended
with the `result` property, `params` and `method` deleted when the
item id is truthy, and `jsonrpc` set to 2.0. -/
structure OkEntry where
  method : Option String
  params : Option JsVal
  id : JsVal
  error : Option ErrObj
  result : Option JsVal
  jsonrpc : String
deriving DecidableEq

/-- One entry of the shaped response payload: a successful entry or an
error entry (produced through `makeErrorEntry` when the per item
result carries an error). -/
inductive RespEntry where
  | ok (e : OkEntry)
  | err (e : ErrEntry)
deriving DecidableEq

/-- The `jsonrpc` property of a shaped response entry. -/
def RespEntry.jsonrpcOf : RespEntry → String
  | .ok e => e.jsonrpc
  | .err e => e.jsonrpc

/-- The `id` property of a shaped response entry. -/
def RespEntry.idOf : RespEntry → JsVal
  | .ok e => e.id
  | .err e => e.id

/-- Whether a shaped response entry carries a `result` property (error
entries never do). -/
def RespEntry.hasResult : RespEntry → Bool
  | .ok e => e.result.isSome
  | .err _ => false

/-- Whether a shaped response entry carries an `error` property. -/
def RespEntry.hasError : RespEntry → Bool
  | .ok e => e.error.isSome
  | .err e => e.error.isSome

/-- Reading the `error` and `result` properties off a value that is
used as one result object: a plain object yields its properties, an
array yields `undefined` for both. -/
def coerceResult : ExecValue → ExecResult
  | .one r => r
  | .arr _ => { error := none, result := none }

/-- Embeds `finalValue[idx]` of `_makeResponsePayload`, where
`finalValue` is the value itself for an array original and the one
element wrapping `[value]` otherwise; `none` models an `undefined`
lookup (out of range index, or numeric index into a plain object). -/
def finalValueAt (orig : Payload) (value : ExecValue) (idx : Nat) : Option ExecResult :=
  match orig with
  | .batch _ =>
      match value with
      | .arr rs => rs[idx]?
      | .one _ => none
  | .single _ => if idx = 0 then some (coerceResult value) else none

/-- Embeds the per item body of `_makeResponsePayload`: a result
carrying an error is shaped through the error entry builder, otherwise
the item is extended with the `result` property; when the item id is
truthy the request only properties `params` and `method` are deleted;
`jsonrpc` is set to 2.0 in both cases. -/
def makeResponseEntry (item : Item) (finalResult : ExecResult) : Option RespEntry :=
  match finalResult.error with
  | some errObj => (makeErrorEntry item errObj).map RespEntry.err
  | none =>
      let ret : OkEntry :=
        { method := item.method, params := item.params, id := item.id,
          error := item.error, result := finalResult.result, jsonrpc := "2.0" }
      let ret := if truthy item.id then { ret with params := none, method := none } else ret
      some (RespEntry.ok ret)

/-- The indexed map of `_makeResponsePayload` over the original items:
the item at position `idx` is shaped against `finalValue[idx]`.  A
`none` models the type error thrown when that lookup is `undefined`. -/
def makeEntriesFrom (orig : Payload) (value : ExecValue) :
    List Item → Nat → Option (List RespEntry)
  | [], _ => some []
  | item :: rest, idx =>
      match finalValueAt orig value idx with
      | none => none
      | some fr =>
          match makeResponseEntry item fr with
          | none => none
          | some e =>
              match makeEntriesFrom orig value rest (idx + 1) with
              | none => none
              | some es => some (e :: es)

/-- Embeds `_makeResponsePayload`: shapes every original item against
the matching result, returning an array for a batch original and the
first (only) entry for a single one. -/
def makeResponsePayload (orig : Payload) (value : ExecValue) : Option (JsOne RespEntry) :=
  match makeEntriesFrom orig value (concatPayload orig) 0 with
  | none => none
  | some es =>
      match orig, es with
      | .batch _, es => some (.arr es)
      | .single _, e :: _ => some (.one e)
      | .single _, [] => none

/-- A thrown JavaScript error as the router catch handler sees it: a
plain string, or an object with optional `message` and `code`. -/
inductive ThrownErr where
  | jsString (s : String)
  | objErr (e : ErrObj)
deriving DecidableEq

/-- Embeds the error normalization of the router catch handler: a
string error becomes the message itself (its `code` read is
`undefined`), an object error contributes its `message` and `code`
properties. -/
def errToCaught : ThrownErr → ErrObj
  | .jsString s => ⟨none, some (.str s)⟩
  | .objErr e => ⟨e.code, e.message⟩

/-- A connection as `_sendRequest` observes it: only the connected
flag of its socket matters to the router. -/
structure Conn where
  isConnected : Bool
deriving DecidableEq

/-- Property reads on the value left in the `payload` variable when
parsing threw (the raw string, or the `payload || \x7b\x7d` fallback
object): `method`, `params` and `id` all read as `undefined`. -/
def stringAsItem : Item := { method := none, params := none, id := .undefined, error := none }

/-- The delivered return value of the router: a shaped response
payload or a shaped error payload (both serialized before delivery). -/
inductive Delivered where
  | respD (r : JsOne RespEntry)
  | errD (e : JsOne ErrEntry)
deriving DecidableEq

/-- The catch handler of `_sendRequest`: shape the caught error
against the original payload and deliver it.  `none` models the
(never observed on the claimed paths) case where the shaping itself
throws, leaving the rejection uncaught. -/
def catchDeliver (orig : Payload) (caught : ErrObj) : Option Delivered :=
  (makeErrorResponsePayload orig caught).map Delivered.errD

/-- The short circuit test of `_sendRequest` after sanitization: only
a single (non array) payload with an attached error is thrown. -/
def singleErrorOf : Payload → Option ErrObj
  | .single i => i.error
  | .batch _ => none

/-- The processor dispatch key: the payload method name when a
processor is registered under it, the base processor otherwise.  An
array payload has no `method` property, so it always dispatches to the
base processor. -/
def procKeyOf (hasProc : String → Bool) : Payload → String
  | .batch _ => "base"
  | .single i =>
      match i.method with
      | some m => if hasProc m = true then m else "base"
      | none => "base"

/-- Placeholder message of the engine thrown type error caught when
response shaping fails; the exact text is engine specific and no
claimed path observes it. -/
def typeErrorMessage : String := "TypeError"

/-- Embeds `_sendRequest` (minus the sync versus async delivery
channel, which only selects where the serialized string goes).  The
router parses the raw string (`parse` is the parse outcome, an
exception message on invalid JSON), obtains the connection (`connRes`
is the outcome of `_getOrCreateConnection`), fails with
`METHOD_TIMEOUT` when the socket is not connected, sanitizes a fresh
copy of the payload, throws the attached error of a single sanitized
payload, dispatches to a processor, and shapes the result; every
thrown error is caught and shaped against the first parsed payload
(or the raw string when parsing itself threw).  Returns the delivered
payload (`none` only if the catch handler itself threw) paired with
whether a processor execution was invoked. -/
def sendRequest (baseSanitize : Item → Item) (hasProc : String → Bool)
    (exec : String → Payload → Except ThrownErr ExecValue)
    (parse : Except String Payload) (connRes : Except ThrownErr Conn) :
    Option Delivered × Bool :=
  match parse with
  | .error msg =>
      (catchDeliver (.single stringAsItem) ⟨none, some (.str msg)⟩, false)
  | .ok payload =>
      match connRes with
      | .error e => (catchDeliver payload (errToCaught e), false)
      | .ok conn =>
          if conn.isConnected = false then
            (catchDeliver payload (errToCaught (.objErr ERRORS_METHOD_TIMEOUT)), false)
          else
            match singleErrorOf (sanitizeRequestPayload baseSanitize payload) with
            | some err => (catchDeliver payload (errToCaught (.objErr err)), false)
            | none =>
                match exec (procKeyOf hasProc (sanitizeRequestPayload baseSanitize payload))
                    (sanitizeRequestPayload baseSanitize payload) with
                | .error e => (catchDeliver payload (errToCaught e), true)
                | .ok value =>
                    match makeResponsePayload payload value with
                    | some resp => (some (.respD resp), true)
                    | none =>
                        (catchDeliver payload ⟨none, some (.str typeErrorMessage)⟩, true)

/-- State of the connect deduplication logic of
`_getOrCreateConnection`: the pending connect promise per owner (with
the awaiters sharing it), the number of transport level connect
attempts issued per owner, and the settlements delivered to awaiters
(owner, awaiter, success flag). -/
structure CMState where
  pending : Nat → Option (List Nat)
  connectCount : Nat → Nat
  delivered : List (Nat × Nat × Bool)

/-- Embeds one entry into the connect block of
`_getOrCreateConnection` (the body guarded by the socket not being
connected): when the socket is already connected nothing happens; when
a pending connect promise exists for the owner the call joins it as a
further awaiter; otherwise a fresh connect chain is created and
recorded, and the transport level connect count for that owner rises
by one, since each created chain performs exactly one socket connect. -/
def createStep (s : CMState) (c a : Nat) (socketConnected : Bool) : CMState :=
  if socketConnected then s
  else
    match s.pending c with
    | some aws =>
        { s with pending := fun x => if x = c then some (aws ++ [a]) else s.pending x }
    | none =>
        { pending := fun x => if x = c then some [a] else s.pending x,
          connectCount := fun x => if x = c then s.connectCount x + 1 else s.connectCount x,
          delivered := s.delivered }

/-- Embeds the settlement of the shared connect chain: the `finally`
handler deletes the pending entry, and every awaiter of the shared
promise receives the same outcome (success or failure). -/
def settleStep (s : CMState) (c : Nat) (ok : Bool) : CMState :=
  match s.pending c with
  | some aws =>
      { pending := fun x => if x = c then none else s.pending x,
        connectCount := s.connectCount,
        delivered := s.delivered ++ aws.map (fun a => (c, a, ok)) }
  | none => s

/-- One entry of the connection table as `_onNodeStateChanged`
observes it: the owner id and the connected flag of its socket. -/
structure ConnItem where
  id : Nat
  isConnected : Bool
deriving DecidableEq

/-- The externally visible effect of the stopping handler on one
connection: whether a socket disconnect was attempted and whether the
owner was then told its channel is not writable. -/
structure StopEffect where
  attempted : Bool
  notified : Bool
deriving DecidableEq

/-- Node lifecycle states of the collaborating node tracker. -/
inductive NodeState where
  | starting
  | connected
  | stopping
  | stopped
deriving DecidableEq

/-- Per connection effect of the stopping branch: a connected socket
has its disconnect attempted, and the owner is notified (writable
false) exactly when that disconnect succeeds, which the outcome map
`disconnectOk` decides per owner; a disconnected socket is left alone.
The effect of one connection depends only on that connection and its
own disconnect outcome. -/
def stopEffectOf (disconnectOk : Nat → Bool) (it : ConnItem) : Nat × StopEffect :=
  (it.id, if it.isConnected then ⟨true, disconnectOk it.id⟩ else ⟨false, false⟩)

/-- Embeds `_onNodeStateChanged`: only the stopping transition acts,
mapping the per connection stopping effect over the whole connection
table (all disconnects are initiated by the map itself, so one
rejection cannot stop the others; the surrounding catch only logs). -/
def onNodeStateChanged (disconnectOk : Nat → Bool) (state : NodeState)
    (conns : List ConnItem) : List (Nat × StopEffect) :=
  match state with
  | .stopping => conns.map (stopEffectOf disconnectOk)
  | _ => []

/-- State observed by `_destroyConnection`: which owners currently
have a connection entry, the writable messages sent so far (owner,
flag), and the sockets destroyed so far. -/
structure DCState where
  connections : Nat → Bool
  sent : List (Nat × Bool)
  destroyed : List Nat

/-- Embeds `_destroyConnection`: when the owner has a connection
entry, the owner is first told its channel is not writable, the socket
is destroyed, and the entry is removed; otherwise nothing happens. -/
def destroyConnection (s : DCState) (c : Nat) : DCState :=
  if s.connections c = true then
    { connections := fun x => if x = c then false else s.connections x,
      sent := s.sent ++ [(c, false)],
      destroyed := s.destroyed ++ [c] }
  else s

/-- A well formed request item: no error property attached. -/
def wfItem (it : Item) : Prop := it.error = none

/-- A well formed execution result: either a success carrying a
result, or an error object with a nonempty string message. -/
def wfRes (r : ExecResult) : Prop :=
  (r.error = none ∧ r.result.isSome = true)
  ∨ (∃ c m, r.error = some ⟨c, some (.str m)⟩ ∧ m ≠ "")

/-- A shaped entry carries exactly one of the `result` and `error`
properties. -/
def exclusiveEntry (e : RespEntry) : Prop :=
  (RespEntry.hasResult e = true ∧ RespEntry.hasError e = false)
  ∨ (RespEntry.hasResult e = false ∧ RespEntry.hasError e = true)

/-- The shape invariant of one response entry against its item:
`jsonrpc` is 2.0, the id matches, and exactly one of result and error
is present. -/
def respOkFor (it : Item) (e : RespEntry) : Prop :=
  RespEntry.jsonrpcOf e = "2.0" ∧ RespEntry.idOf e = it.id ∧ exclusiveEntry e

/-- The error entry produced for an item when the socket is not
connected: the `METHOD_TIMEOUT` error, templated on the item method. -/
def timeoutEntry (it : Item) : ErrEntry :=
  ⟨"2.0", some (-32603), none,
   some (replaceQuoted (jsMethodString it) methodTimeoutTemplate), none, none, it.id⟩

/-- The shape of an error payload built by mapping an entry builder
over the original payload: an array for a batch, one entry otherwise. -/
def errShapeOf (f : Item → ErrEntry) : Payload → JsOne ErrEntry
  | .single i => .one (f i)
  | .batch l => .arr (l.map f)

/-- The items of a shaped error payload. -/
def entriesOf : JsOne ErrEntry → List ErrEntry
  | .one e => [e]
  | .arr es => es

/-- Whether a delivered payload is an error payload with some entry
carrying the given top level code. -/
def carriesCode (n : Int) : Option Delivered → Bool
  | some (.errD p) => (entriesOf p).any fun e => e.code == some n
  | _ => false

/-- Fixture: the identity base sanitizer. -/
def wId : Item → Item := fun i => i

/-- Fixture: a registry with no named processors (everything falls to
base). -/
def wHP : String → Bool := fun _ => false

/-- Fixture: an execution that succeeds with the number one. -/
def wEX : String → Payload → Except ThrownErr ExecValue :=
  fun _ _ => .ok (.one ⟨none, some (.num 1)⟩)

/-- Fixture: a batch item submitting a transaction. -/
def wTxItem : Item := ⟨some "eth_sendTransaction", none, .num 1, none⟩

/-- Fixture: a request item for the method eth_foo with id seven. -/
def wItemFoo : Item := ⟨some "eth_foo", none, .num 7, none⟩

/-- Fixture: a base sanitizer that denies every method. -/
def wDenyBS : Item → Item := fun i => { i with error := some ERRORS_METHOD_DENIED }

/-- Fixture: an empty connect manager state. -/
def wCM : CMState := ⟨fun _ => none, fun _ => 0, []⟩

/-- Fixture: a destruction state in which only owner zero has a
connection. -/
def wDC : DCState := ⟨fun x => x == 0, [], []⟩

lemma makeErrorEntry_str_ne (it : Item) (c : Option Int) (m : String) (hm : m ≠ "") :
    makeErrorEntry it ⟨c, some (.str m)⟩
      = some ⟨"2.0", c, none, some (replaceQuoted (jsMethodString it) m), none, none, it.id⟩ := by
  simp [makeErrorEntry, msgTruthy, msgToStr, hm]

lemma makeErrorEntry_str_isSome (it : Item) (c : Option Int) (m : String) :
    (makeErrorEntry it ⟨c, some (.str m)⟩).isSome = true := by
  by_cases hm : m = ""
  · subst hm
    simp [makeErrorEntry, msgTruthy]
  · simp [makeErrorEntry_str_ne it c m hm]

lemma makeErrorEntries_str (c : Option Int) (m : String) (hm : m ≠ "") (l : List Item) :
    makeErrorEntries ⟨c, some (.str m)⟩ l
      = some (l.map fun it =>
          ⟨"2.0", c, none, some (replaceQuoted (jsMethodString it) m), none, none, it.id⟩) := by
  induction l with
  | nil => rfl
  | cons it rest ih => simp [makeErrorEntries, makeErrorEntry_str_ne it c m hm, ih]

lemma makeErrorResponsePayload_single_str (it : Item) (c : Option Int) (m : String)
    (hm : m ≠ "") :
    makeErrorResponsePayload (.single it) ⟨c, some (.str m)⟩
      = some (.one ⟨"2.0", c, none, some (replaceQuoted (jsMethodString it) m),
          none, none, it.id⟩) := by
  simp [makeErrorResponsePayload, concatPayload, makeErrorEntries_str c m hm]

lemma makeErrorResponsePayload_batch_str (l : List Item) (c : Option Int) (m : String)
    (hm : m ≠ "") :
    makeErrorResponsePayload (.batch l) ⟨c, some (.str m)⟩
      = some (.arr (l.map fun it =>
          ⟨"2.0", c, none, some (replaceQuoted (jsMethodString it) m), none, none, it.id⟩)) := by
  simp [makeErrorResponsePayload, concatPayload, makeErrorEntries_str c m hm]

/-- C1: in a batch payload, sanitization marks exactly the
`eth_sendTransaction` entries with the `BATCH_TX_DENIED` error (code
-32603) while every other entry still goes through the base processor
sanitize step, and a batch is never short circuited at sanitization
time: the router still invokes a processor execution for it. -/
theorem batch_sanitize_marks_tx_denied (bs : Item → Item) (hp : String → Bool)
    (ex : String → Payload → Except ThrownErr ExecValue)
    (l : List Item) (i : Nat) (it : Item) (hit : l[i]? = some it) :
    ∃ l2, sanitizeRequestPayload bs (.batch l) = .batch l2
      ∧ l2.length = l.length
      ∧ (it.method = some "eth_sendTransaction" →
          l2[i]? = some { it with error := some ERRORS_BATCH_TX_DENIED })
      ∧ (it.method ≠ some "eth_sendTransaction" → l2[i]? = some (bs it))
      ∧ ERRORS_BATCH_TX_DENIED.code = some (-32603)
      ∧ (sendRequest bs hp ex (.ok (.batch l)) (.ok ⟨true⟩)).2 = true := by
  refine ⟨_, rfl, by simp, ?_, ?_, rfl, ?_⟩
  · intro hm
    simp [List.getElem?_map, hit, hm]
  · intro hm
    simp [List.getElem?_map, hit, hm]
  · simp only [sendRequest, sanitizeRequestPayload, singleErrorOf, Conn.isConnected]
    cases hx : ex (procKeyOf hp (.batch (l.map fun p =>
        if p.method = some "eth_sendTransaction" then
          { p with error := some ERRORS_BATCH_TX_DENIED }
        else bs p)))
        (.batch (l.map fun p =>
          if p.method = some "eth_sendTransaction" then
            { p with error := some ERRORS_BATCH_TX_DENIED }
          else bs p)) with
    | error e => simp [hx]
    | ok v =>
        cases hy : makeResponsePayload (.batch l) v with
        | none => simp [hx, hy]
        | some resp => simp [hx, hy]

/-- C7: the error shaper produces one entry per original item, each
carrying that item id, mirroring the same error across all items of a
batch, templating the quoted placeholder of the message with that item
method name, and carrying no request only `params` or `method`
properties; denying `eth_foo` yields a message containing eth_foo. -/
theorem error_payload_per_item (l : List Item) (it0 : Item) (c : Option Int)
    (m : String) (hm : m ≠ "") :
    makeErrorResponsePayload (.batch l) ⟨c, some (.str m)⟩
      = some (.arr (l.map fun it =>
          ⟨"2.0", c, none, some (replaceQuoted (jsMethodString it) m), none, none, it.id⟩))
    ∧ makeErrorResponsePayload (.single it0) ⟨c, some (.str m)⟩
      = some (.one ⟨"2.0", c, none, some (replaceQuoted (jsMethodString it0) m),
          none, none, it0.id⟩)
    ∧ replaceQuoted "eth_foo" methodDeniedTemplate
      = "Method " ++ sq ++ "eth_foo" ++ sq ++ " not allowed." := by
  refine ⟨makeErrorResponsePayload_batch_str l c m hm,
    makeErrorResponsePayload_single_str it0 c m hm, ?_⟩
  decide

/-- Witness for C7 at a concrete one element batch and item. -/
theorem error_payload_per_item_w :
    makeErrorResponsePayload (.batch [wItemFoo]) ⟨some (-32601), some (.str methodDeniedTemplate)⟩
      = some (.arr ([wItemFoo].map fun it =>
          ⟨"2.0", some (-32601), none,
           some (replaceQuoted (jsMethodString it) methodDeniedTemplate), none, none, it.id⟩))
    ∧ makeErrorResponsePayload (.single wItemFoo)
        ⟨some (-32601), some (.str methodDeniedTemplate)⟩
      = some (.one ⟨"2.0", some (-32601), none,
          some (replaceQuoted (jsMethodString wItemFoo) methodDeniedTemplate),
          none, none, wItemFoo.id⟩)
    ∧ replaceQuoted "eth_foo" methodDeniedTemplate
      = "Method " ++ sq ++ "eth_foo" ++ sq ++ " not allowed." :=
  error_payload_per_item [wItemFoo] wItemFoo (some (-32601)) methodDeniedTemplate (by decide)

/-- C5: when the connection is obtained but its socket is not
connected, the router fails with the `METHOD_TIMEOUT` error (code
-32603) shaped against the request, and no processor execution is
invoked, so nothing is forwarded to the node. -/
theorem not_connected_times_out (bs : Item → Item) (hp : String → Bool)
    (ex : String → Payload → Except ThrownErr ExecValue) (payload : Payload) :
    sendRequest bs hp ex (.ok payload) (.ok ⟨false⟩)
      = (some (.errD (errShapeOf timeoutEntry payload)), false)
    ∧ ERRORS_METHOD_TIMEOUT.code = some (-32603) := by
  have hm : methodTimeoutTemplate ≠ "" := by decide
  refine ⟨?_, rfl⟩
  cases payload with
  | single it =>
      simp [sendRequest, catchDeliver, errToCaught, ERRORS_METHOD_TIMEOUT,
        makeErrorResponsePayload_single_str it (some (-32603)) methodTimeoutTemplate hm,
        errShapeOf, timeoutEntry]
  | batch l =>
      simp [sendRequest, catchDeliver, errToCaught, ERRORS_METHOD_TIMEOUT,
        makeErrorResponsePayload_batch_str l (some (-32603)) methodTimeoutTemplate hm,
        errShapeOf, timeoutEntry]

/-- Witness for C1 at a concrete one element batch whose only entry
submits a transaction. -/
theorem batch_sanitize_marks_tx_denied_w :
    ∃ l2, sanitizeRequestPayload wId (.batch [wTxItem]) = .batch l2
      ∧ l2.length = [wTxItem].length
      ∧ (wTxItem.method = some "eth_sendTransaction" →
          l2[0]? = some { wTxItem with error := some ERRORS_BATCH_TX_DENIED })
      ∧ (wTxItem.method ≠ some "eth_sendTransaction" → l2[0]? = some (wId wTxItem))
      ∧ ERRORS_BATCH_TX_DENIED.code = some (-32603)
      ∧ (sendRequest wId wHP wEX (.ok (.batch [wTxItem])) (.ok ⟨true⟩)).2 = true :=
  batch_sanitize_marks_tx_denied wId wHP wEX [wTxItem] 0 wTxItem rfl

lemma catchDeliver_single_str_isSome (it : Item) (c : Option Int) (m : String) :
    (catchDeliver (.single it) ⟨c, some (.str m)⟩).isSome = true := by
  by_cases hm : m = ""
  · subst hm
    simp [catchDeliver, makeErrorResponsePayload, concatPayload, makeErrorEntries,
      makeErrorEntry, msgTruthy]
  · simp [catchDeliver, makeErrorResponsePayload_single_str it c m hm]

/-- C2 counterexample: on a concrete invalid JSON string the router
does catch the failure and deliver an error payload, but that payload
does not carry the invalid payload code -32600 anywhere (the caught
parse exception has no code property, and `ERRORS.INVALID_PAYLOAD` is
never applied on this path). -/
theorem parse_error_not_invalid_payload_cex :
    (sendRequest wId wHP wEX (.error "Unexpected end of JSON input") (.ok ⟨true⟩)).1.isSome
        = true
    ∧ carriesCode (-32600)
        (sendRequest wId wHP wEX (.error "Unexpected end of JSON input") (.ok ⟨true⟩)).1
      = false := by
  constructor
  · decide
  · decide

/-- C2 (amended): for every raw string that fails to parse, the router
never leaves the failure uncaught: it always delivers a shaped JSON
RPC error payload; the payload it delivers is built from the parse
exception message itself (templated against the raw string, whose
method reads as undefined), with no code property at all rather than
the invalid payload code -32600. -/
theorem parse_failure_is_caught (bs : Item → Item) (hp : String → Bool)
    (ex : String → Payload → Except ThrownErr ExecValue)
    (connRes : Except ThrownErr Conn) (msg msg2 : String) (hmsg : msg ≠ "") :
    sendRequest bs hp ex (.error msg) connRes
      = (some (.errD (.one ⟨"2.0", none, none, some (replaceQuoted "undefined" msg),
          none, none, .undefined⟩)), false)
    ∧ (sendRequest bs hp ex (.error msg2) connRes).1.isSome = true := by
  constructor
  · have h := makeErrorResponsePayload_single_str stringAsItem none msg hmsg
    simp only [stringAsItem, jsMethodString, Option.getD_none] at h
    simp [sendRequest, catchDeliver, stringAsItem, h]
  · simp only [sendRequest]
    exact catchDeliver_single_str_isSome stringAsItem none msg2

/-- Witness for C2 (amended) at a concrete parse failure message,
including the empty message edge for the uncaught freedom conjunct. -/
theorem parse_failure_is_caught_w :
    sendRequest wId wHP wEX (.error "Unexpected token x") (.ok ⟨true⟩)
      = (some (.errD (.one ⟨"2.0", none, none,
          some (replaceQuoted "undefined" "Unexpected token x"),
          none, none, .undefined⟩)), false)
    ∧ (sendRequest wId wHP wEX (.error "") (.ok ⟨true⟩)).1.isSome = true :=
  parse_failure_is_caught wId wHP wEX (.ok ⟨true⟩) "Unexpected token x" "" (by decide)

/-- C6: when sanitization attaches an error to a single (non batch)
payload, the router short circuits by throwing it: no processor
execution is invoked, and the caller receives exactly that error
shaped as a JSON RPC error payload against the original item. -/
theorem single_sanitize_error_short_circuits (bs : Item → Item) (hp : String → Bool)
    (ex : String → Payload → Except ThrownErr ExecValue) (item : Item) (e : ErrObj)
    (m : String) (hs : (bs item).error = some e) (hm : e.message = some (.str m))
    (hne : m ≠ "") :
    sendRequest bs hp ex (.ok (.single item)) (.ok ⟨true⟩)
      = (some (.errD (.one ⟨"2.0", e.code, none,
          some (replaceQuoted (jsMethodString item) m), none, none, item.id⟩)), false) := by
  simp [sendRequest, sanitizeRequestPayload, singleErrorOf, hs, catchDeliver,
    errToCaught, hm, makeErrorResponsePayload_single_str item e.code m hne]

/-- Witness for C6: a base sanitizer that denies every method, applied
to a single eth_foo request. -/
theorem single_sanitize_error_short_circuits_w :
    sendRequest wDenyBS wHP wEX (.ok (.single wItemFoo)) (.ok ⟨true⟩)
      = (some (.errD (.one ⟨"2.0", ERRORS_METHOD_DENIED.code, none,
          some (replaceQuoted (jsMethodString wItemFoo) methodDeniedTemplate),
          none, none, wItemFoo.id⟩)), false) :=
  single_sanitize_error_short_circuits wDenyBS wHP wEX wItemFoo ERRORS_METHOD_DENIED
    methodDeniedTemplate rfl rfl (by decide)

lemma makeResponseEntry_wf (it : Item) (r : ExecResult) (hit : wfItem it)
    (hr : wfRes r) : ∃ e, makeResponseEntry it r = some e ∧ respOkFor it e := by
  have hit2 : it.error = none := hit
  rcases hr with ⟨he, hres⟩ | ⟨c, m, he, hm⟩
  · by_cases hid : truthy it.id = true
    · refine ⟨.ok ⟨none, none, it.id, it.error, r.result, "2.0"⟩, ?_, rfl, rfl, ?_⟩
      · simp [makeResponseEntry, he, hid]
      · exact Or.inl ⟨by simp [RespEntry.hasResult, hres],
          by simp [RespEntry.hasError, hit2]⟩
    · refine ⟨.ok ⟨it.method, it.params, it.id, it.error, r.result, "2.0"⟩, ?_, rfl, rfl, ?_⟩
      · simp [makeResponseEntry, he, hid]
      · exact Or.inl ⟨by simp [RespEntry.hasResult, hres],
          by simp [RespEntry.hasError, hit2]⟩
  · refine ⟨.err ⟨"2.0", c, none, some (replaceQuoted (jsMethodString it) m),
      none, none, it.id⟩, ?_, rfl, rfl, Or.inr ⟨rfl, rfl⟩⟩
    simp [makeResponseEntry, he, makeErrorEntry_str_ne it c m hm]

lemma entriesFrom_batch (L : List Item) (RS : List ExecResult) (l : List Item)
    (rs : List ExecResult) (idx : Nat) (hRS : ∀ j, RS[idx + j]? = rs[j]?)
    (hlen : l.length = rs.length) (hl : ∀ x ∈ l, wfItem x) (hrs : ∀ x ∈ rs, wfRes x) :
    ∃ es, makeEntriesFrom (.batch L) (.arr RS) l idx = some es
      ∧ List.Forall₂ respOkFor l es := by
  induction l generalizing rs idx with
  | nil => exact ⟨[], rfl, List.Forall₂.nil⟩
  | cons it l2 ih =>
      cases rs with
      | nil => simp at hlen
      | cons r rs2 =>
          have h0 : RS[idx]? = some r := by
            have h := hRS 0
            simpa using h
          obtain ⟨e, he, hPe⟩ := makeResponseEntry_wf it r
            (hl it (List.mem_cons_self it l2)) (hrs r (List.mem_cons_self r rs2))
          obtain ⟨es, hes, hPes⟩ := ih rs2 (idx + 1)
            (fun j => by
              have h := hRS (j + 1)
              have e1 : idx + (j + 1) = idx + 1 + j := by omega
              rw [e1] at h
              simpa using h)
            (by simpa using hlen)
            (fun x hx => hl x (List.mem_cons_of_mem it hx))
            (fun x hx => hrs x (List.mem_cons_of_mem r hx))
          refine ⟨e :: es, ?_, List.Forall₂.cons hPe hPes⟩
          simp [makeEntriesFrom, finalValueAt, h0, he, hes]

/-- C4: every shaped response mirrors the single versus batch shape of
the originating request, carries `jsonrpc` 2.0 and the matching id,
and (for well formed requests and results) contains exactly one of a
result or an error property; concretely a successful single request
for method m with id 7 yields `jsonrpc` 2.0, id 7 and the result, with
the request only `params` and `method` properties absent. -/
theorem response_payload_shape (v : JsVal) (it : Item) (r : ExecResult)
    (l : List Item) (rs : List ExecResult) (hit : wfItem it) (hr : wfRes r)
    (hlen : l.length = rs.length) (hl : ∀ x ∈ l, wfItem x)
    (hrs : ∀ x ∈ rs, wfRes x) :
    makeResponsePayload (.single ⟨some "m", none, .num 7, none⟩) (.one ⟨none, some v⟩)
      = some (.one (.ok ⟨none, none, .num 7, none, some v, "2.0"⟩))
    ∧ (∃ e, makeResponsePayload (.single it) (.one r) = some (.one e) ∧ respOkFor it e)
    ∧ (∃ es, makeResponsePayload (.batch l) (.arr rs) = some (.arr es)
        ∧ List.Forall₂ respOkFor l es) := by
  refine ⟨rfl, ?_, ?_⟩
  · obtain ⟨e, he, hPe⟩ := makeResponseEntry_wf it r hit hr
    refine ⟨e, ?_, hPe⟩
    simp [makeResponsePayload, concatPayload, makeEntriesFrom, finalValueAt,
      coerceResult, he]
  · obtain ⟨es, hes, hPes⟩ := entriesFrom_batch l rs l rs 0 (fun j => by simp) hlen hl hrs
    refine ⟨es, ?_, hPes⟩
    simp [makeResponsePayload, concatPayload, hes]

/-- Witness for C4 at a concrete item, result and one element batch. -/
theorem response_payload_shape_w :
    makeResponsePayload (.single ⟨some "m", none, .num 7, none⟩)
        (.one ⟨none, some (.num 5)⟩)
      = some (.one (.ok ⟨none, none, .num 7, none, some (.num 5), "2.0"⟩))
    ∧ (∃ e, makeResponsePayload (.single wItemFoo) (.one ⟨none, some (.num 5)⟩)
        = some (.one e) ∧ respOkFor wItemFoo e)
    ∧ (∃ es, makeResponsePayload (.batch [wItemFoo]) (.arr [⟨none, some (.num 5)⟩])
        = some (.arr es) ∧ List.Forall₂ respOkFor [wItemFoo] es) :=
  response_payload_shape (.num 5) wItemFoo ⟨none, some (.num 5)⟩ [wItemFoo]
    [⟨none, some (.num 5)⟩] rfl (Or.inl ⟨rfl, rfl⟩) rfl
    (by intro x hx; rw [List.mem_singleton] at hx; subst hx; rfl)
    (by intro x hx; rw [List.mem_singleton] at hx; subst hx; exact Or.inl ⟨rfl, rfl⟩)

/-- C10 (implicit): the successful response shaper deletes the
request only `params` and `method` properties exactly when the item id
is truthy; a falsy id (absent, null, zero, empty string, false) leaves
the original `params` and `method` in place alongside `result` and
`jsonrpc`. -/
theorem falsy_id_retains_request_only_fields (it1 it2 : Item) (r : ExecResult)
    (h1 : truthy it1.id = false) (h2 : truthy it2.id = true) (hr : r.error = none) :
    makeResponsePayload (.single it1) (.one r)
      = some (.one (.ok ⟨it1.method, it1.params, it1.id, it1.error, r.result, "2.0"⟩))
    ∧ makeResponsePayload (.single it2) (.one r)
      = some (.one (.ok ⟨none, none, it2.id, it2.error, r.result, "2.0"⟩)) := by
  constructor
  · simp [makeResponsePayload, concatPayload, makeEntriesFrom, finalValueAt,
      coerceResult, makeResponseEntry, hr, h1]
  · simp [makeResponsePayload, concatPayload, makeEntriesFrom, finalValueAt,
      coerceResult, makeResponseEntry, hr, h2]

/-- Witness for C10: id zero (falsy) keeps `params` and `method`, id
seven (truthy) drops them. -/
theorem falsy_id_retains_request_only_fields_w :
    makeResponsePayload (.single ⟨some "m", some (.str "p"), .num 0, none⟩)
        (.one ⟨none, some (.num 5)⟩)
      = some (.one (.ok ⟨some "m", some (.str "p"), .num 0, none, some (.num 5), "2.0"⟩))
    ∧ makeResponsePayload (.single ⟨some "m", some (.str "p"), .num 7, none⟩)
        (.one ⟨none, some (.num 5)⟩)
      = some (.one (.ok ⟨none, none, .num 7, none, some (.num 5), "2.0"⟩)) :=
  falsy_id_retains_request_only_fields ⟨some "m", some (.str "p"), .num 0, none⟩
    ⟨some "m", some (.str "p"), .num 7, none⟩ ⟨none, some (.num 5)⟩ rfl rfl rfl

/-- C3: while a connect is in flight for an owner, a second
connection creation call joins the single pending operation instead of
issuing another transport connect (exactly one connect attempt for
both calls); the pending entry is removed once the connect settles,
the settlement (in particular a failure) is delivered to all awaiters,
and a later call starts a fresh connect attempt. -/
theorem concurrent_create_shares_connect (s : CMState) (c a1 a2 a3 : Nat) (ok : Bool)
    (h : s.pending c = none) :
    (createStep (createStep s c a1 false) c a2 false).connectCount c
        = s.connectCount c + 1
    ∧ (createStep (createStep s c a1 false) c a2 false).pending c = some [a1, a2]
    ∧ (settleStep (createStep (createStep s c a1 false) c a2 false) c ok).pending c = none
    ∧ (settleStep (createStep (createStep s c a1 false) c a2 false) c ok).delivered
        = (createStep (createStep s c a1 false) c a2 false).delivered
            ++ [(c, a1, ok), (c, a2, ok)]
    ∧ (createStep (settleStep (createStep (createStep s c a1 false) c a2 false) c ok)
          c a3 false).connectCount c
        = s.connectCount c + 2 := by
  simp [createStep, settleStep, h]

/-- Witness for C3 from the empty connect manager state, with a
failing settlement. -/
theorem concurrent_create_shares_connect_w :
    (createStep (createStep wCM 0 1 false) 0 2 false).connectCount 0
        = wCM.connectCount 0 + 1
    ∧ (createStep (createStep wCM 0 1 false) 0 2 false).pending 0 = some [1, 2]
    ∧ (settleStep (createStep (createStep wCM 0 1 false) 0 2 false) 0 false).pending 0
        = none
    ∧ (settleStep (createStep (createStep wCM 0 1 false) 0 2 false) 0 false).delivered
        = (createStep (createStep wCM 0 1 false) 0 2 false).delivered
            ++ [(0, 1, false), (0, 2, false)]
    ∧ (createStep (settleStep (createStep (createStep wCM 0 1 false) 0 2 false) 0 false)
          0 3 false).connectCount 0
        = wCM.connectCount 0 + 2 :=
  concurrent_create_shares_connect wCM 0 1 2 3 false rfl

/-- C8: on the stopping transition, every connection whose socket is
connected has a disconnect attempted and its owner notified (writable
false) exactly when its own disconnect succeeds; connections whose
sockets are not connected are left alone; and the effect on one
connection depends only on that connection and its own outcome, so one
failure never blocks the others (best effort fan out). -/
theorem node_stopping_disconnect_fanout (f g : Nat → Bool) (conns : List ConnItem)
    (it : ConnItem) (hfg : f it.id = g it.id) :
    List.Forall₂ (fun (cn : ConnItem) (p : Nat × StopEffect) =>
        p.1 = cn.id
        ∧ (cn.isConnected = true → p.2 = ⟨true, f cn.id⟩)
        ∧ (cn.isConnected = false → p.2 = ⟨false, false⟩))
      conns (onNodeStateChanged f .stopping conns)
    ∧ stopEffectOf f it = stopEffectOf g it
    ∧ onNodeStateChanged f .stopping conns = conns.map (stopEffectOf f) := by
  refine ⟨?_, ?_, rfl⟩
  · show List.Forall₂ _ conns (conns.map (stopEffectOf f))
    induction conns with
    | nil => exact List.Forall₂.nil
    | cons cn rest ih =>
        rw [List.map_cons]
        refine List.Forall₂.cons ⟨rfl, ?_, ?_⟩ ih
        · intro hcn
          simp [stopEffectOf, hcn]
        · intro hcn
          simp [stopEffectOf, hcn]
  · simp [stopEffectOf, hfg]

/-- Witness for C8 on a two connection table (one connected, one not)
and two outcome maps agreeing on the tested connection. -/
theorem node_stopping_disconnect_fanout_w :
    List.Forall₂ (fun (cn : ConnItem) (p : Nat × StopEffect) =>
        p.1 = cn.id
        ∧ (cn.isConnected = true → p.2 = ⟨true, (fun _ => false) cn.id⟩)
        ∧ (cn.isConnected = false → p.2 = ⟨false, false⟩))
      [⟨1, true⟩, ⟨2, false⟩]
      (onNodeStateChanged (fun _ => false) .stopping [⟨1, true⟩, ⟨2, false⟩])
    ∧ stopEffectOf (fun _ => false) ⟨1, true⟩
        = stopEffectOf (fun i => decide (i = 2)) ⟨1, true⟩
    ∧ onNodeStateChanged (fun _ => false) .stopping [⟨1, true⟩, ⟨2, false⟩]
        = [⟨1, true⟩, ⟨2, false⟩].map (stopEffectOf (fun _ => false)) :=
  node_stopping_disconnect_fanout (fun _ => false) (fun i => decide (i = 2))
    [⟨1, true⟩, ⟨2, false⟩] ⟨1, true⟩ rfl

lemma destroyConnection_of_false (s : DCState) (c : Nat) (h : s.connections c = false) :
    destroyConnection s c = s := by
  simp [destroyConnection, h]

/-- C9: `destroyConnection` is idempotent: with an existing connection
it notifies the owner (writable false), destroys the socket and
removes the entry; with no connection it is a no op; and running it
twice equals running it once (state and emitted effects included). -/
theorem destroyConnection_idempotent (s : DCState) (c : Nat) :
    destroyConnection (destroyConnection s c) c = destroyConnection s c
    ∧ (s.connections c = true →
        (destroyConnection s c).sent = s.sent ++ [(c, false)]
        ∧ (destroyConnection s c).destroyed = s.destroyed ++ [c]
        ∧ (destroyConnection s c).connections c = false)
    ∧ (s.connections c = false → destroyConnection s c = s) := by
  refine ⟨?_, ?_, fun h => destroyConnection_of_false s c h⟩
  · by_cases h : s.connections c = true
    · apply destroyConnection_of_false
      simp [destroyConnection, h]
    · have hf : s.connections c = false := by simpa using h
      rw [destroyConnection_of_false s c hf, destroyConnection_of_false s c hf]
  · intro h
    refine ⟨?_, ?_, ?_⟩ <;> simp [destroyConnection, h]

/-- Witness for C9: owner zero has a connection (effects emitted,
entry removed, second run a no op); owner one has none (no op). -/
theorem destroyConnection_idempotent_w :
    (destroyConnection wDC 0).sent = wDC.sent ++ [(0, false)]
    ∧ (destroyConnection wDC 0).destroyed = wDC.destroyed ++ [0]
    ∧ (destroyConnection wDC 0).connections 0 = false
    ∧ destroyConnection (destroyConnection wDC 0) 0 = destroyConnection wDC 0
    ∧ destroyConnection wDC 1 = wDC :=
  ⟨((destroyConnection_idempotent wDC 0).2.1 rfl).1,
   ((destroyConnection_idempotent wDC 0).2.1 rfl).2.1,
   ((destroyConnection_idempotent wDC 0).2.1 rfl).2.2,
   (destroyConnection_idempotent wDC 0).1,
   (destroyConnection_idempotent wDC 1).2.2 rfl⟩

end Ipc
